import Mathlib

/-!
Verification of the AutoViz pipeline (`src/index.py`): a shallow embedding of
`load_data`, `analyze_data`, `generate_visualizations`, `create_zip_archive`
and the inline HTML-report builder, together with theorems about the claims
of the specification.

Modelling conventions:
* a cell value is an `Option String` (`none` is a null/NaN cell);
* a column's pandas dtype is abstracted to `Dtype` (numeric / datetime64 /
  anything else), mirroring the two `pd.api.types` checks the code performs;
* a matplotlib/seaborn figure is represented by the parameters of the library
  calls that configured it (`Fig`);
* the pandas parsers `read_csv` / `read_excel` are parameters returning
  `Except String DataFrame`, an `Except.error` standing for a raised
  exception with the given message;
* progress reporting (`progress_bar.progress(plot_counter/total_plots)`) is
  recorded as the list of `(plot_counter, total_plots)` pairs at which the
  fraction is evaluated.
-/

/-- Inferred pandas dtype of a column: numeric, datetime64, or anything else
(object/string and the like). -/
inductive Dtype where
  | numeric
  | datetime64
  | object
deriving DecidableEq, Repr

/-- A dataframe column: its name, inferred dtype, and its cells in row order
(`none` models a null/NaN cell). -/
structure Column where
  name : String
  dtype : Dtype
  values : List (Option String)
deriving DecidableEq, Repr

/-- An in-memory dataframe: the row count (`len(df)`) and the columns in
dataframe order. -/
structure DataFrame where
  nrows : Nat
  columns : List Column
deriving DecidableEq, Repr

/-- Model of `pd.api.types.is_numeric_dtype`. -/
def is_numeric_dtype : Dtype → Bool
  | Dtype.numeric => true
  | _ => false

/-- Model of `pd.api.types.is_datetime64_any_dtype`. -/
def is_datetime64_any_dtype : Dtype → Bool
  | Dtype.datetime64 => true
  | _ => false

/-- Model of `Series.nunique()`: the number of distinct non-null values. -/
def nunique (c : Column) : Nat :=
  (c.values.filterMap id).dedup.length

/-- The loop body of `analyze_data` (lines 69-77 of `src/index.py`), with the
head column classified in front of the classification of the remaining
columns, exactly as the forward `for` loop appends. -/
def classifyCols : List Column → List Column × List Column × List Column
  | [] => ([], [], [])
  | col :: rest =>
    let r := classifyCols rest
    if is_numeric_dtype col.dtype then (col :: r.1, r.2.1, r.2.2)
    else if is_datetime64_any_dtype col.dtype then (r.1, r.2.1, col :: r.2.2)
    else if nunique col ≤ 20 then (r.1, col :: r.2.1, r.2.2)
    else r

/-- Model of `analyze_data(df)`: returns
`(numeric_cols, categorical_cols, datetime_cols)`. -/
def analyze_data (df : DataFrame) : List Column × List Column × List Column :=
  classifyCols df.columns

/-- Boolean test used below for the numeric bucket. -/
def isNumericCol (c : Column) : Bool :=
  is_numeric_dtype c.dtype

/-- Boolean test used below for the categorical bucket. -/
def isCategoricalCol (c : Column) : Bool :=
  !is_numeric_dtype c.dtype && !is_datetime64_any_dtype c.dtype && decide (nunique c ≤ 20)

/-- Boolean test used below for the datetime bucket. -/
def isDatetimeCol (c : Column) : Bool :=
  !is_numeric_dtype c.dtype && is_datetime64_any_dtype c.dtype

theorem classifyCols_eq_filters (l : List Column) :
    classifyCols l =
      (l.filter isNumericCol, l.filter isCategoricalCol, l.filter isDatetimeCol) := by
  induction l with
  | nil => rfl
  | cons col rest ih =>
    simp only [classifyCols, ih, List.filter_cons]
    cases hn : is_numeric_dtype col.dtype <;>
      cases hd : is_datetime64_any_dtype col.dtype <;>
        by_cases hu : nunique col ≤ 20 <;>
          simp [isNumericCol, isCategoricalCol, isDatetimeCol, hn, hd, hu]

theorem analyze_data_eq (df : DataFrame) :
    analyze_data df =
      (df.columns.filter isNumericCol,
       df.columns.filter isCategoricalCol,
       df.columns.filter isDatetimeCol) :=
  classifyCols_eq_filters df.columns

/-- An uploaded file: its name and its raw byte content. -/
structure UploadedFile where
  name : String
  content : List Nat
deriving DecidableEq, Repr

/-- Model of Python `str.endswith(suffix)`. -/
def pyEndsWith (s suffixStr : String) : Bool :=
  suffixStr.data.isSuffixOf s.data

/-- Model of `load_data(uploaded_file)` (lines 49-61 of `src/index.py`).
The pandas parsers are parameters; `Except.error e` models a raised
exception with message `e`, which the `try/except` catches.  The result is
the returned dataframe (or `none`) paired with the list of `st.error`
messages shown to the user; as a total Lean function it can never
propagate an exception. -/
def load_data (read_csv read_excel : UploadedFile → Except String DataFrame)
    (f : UploadedFile) : Option DataFrame × List String :=
  if pyEndsWith f.name ".csv" then
    match read_csv f with
    | Except.ok df => (some df, [])
    | Except.error e => (none, ["Error loading file: " ++ e])
  else if pyEndsWith f.name ".xlsx" || pyEndsWith f.name ".xls" then
    match read_excel f with
    | Except.ok df => (some df, [])
    | Except.error e => (none, ["Error loading file: " ++ e])
  else
    (none, ["Unsupported file format. Please upload a CSV or Excel file."])

theorem suffixes_incompatible {a b s : List Char} (ha : a <:+ s) (hb : b <:+ s)
    (h1 : ¬ a <:+ b) (h2 : ¬ b <:+ a) : False :=
  (List.suffix_or_suffix_of_suffix ha hb).elim h1 h2

theorem pyEndsWith_suffix {s t : String} (h : pyEndsWith s t = true) :
    t.data <:+ s.data := by
  simpa [pyEndsWith] using h

theorem pyEndsWith_false_of_incompatible {s t u : String}
    (h : pyEndsWith s t = true) (h1 : ¬ u.data <:+ t.data) (h2 : ¬ t.data <:+ u.data) :
    pyEndsWith s u = false := by
  cases hu : pyEndsWith s u with
  | false => rfl
  | true =>
    exact (suffixes_incompatible (pyEndsWith_suffix hu) (pyEndsWith_suffix h) h1 h2).elim

/-- Example numeric column. -/
def exNum : Column := ⟨"age", Dtype.numeric, [some "31", some "45"]⟩

/-- Example low-cardinality text column. -/
def exCat : Column := ⟨"city", Dtype.object, [some "Lahore", some "Karachi", none]⟩

/-- Example datetime column. -/
def exDate : Column := ⟨"signup", Dtype.datetime64, [some "2020-01-01", some "2020-02-01"]⟩

/-- Example high-cardinality text column (21 distinct non-null values). -/
def exHigh : Column := ⟨"id", Dtype.object, (List.range 21).map (fun k => some (toString k))⟩

/-- Example dataframe holding the four example columns. -/
def exDf : DataFrame := ⟨2, [exNum, exCat, exDate, exHigh]⟩

/-- C1: `analyze_data` classifies a column as numeric exactly when its
inferred dtype is numeric; otherwise as datetime exactly when its dtype is a
date/time dtype; otherwise as categorical exactly when its distinct
non-null value count is at most 20; and each of the three returned sequences
lists its columns in dataframe column order (they are order-preserving
filters of `df.columns`). -/
theorem analyze_data_classification (df : DataFrame) :
    analyze_data df =
      (df.columns.filter isNumericCol,
       df.columns.filter isCategoricalCol,
       df.columns.filter isDatetimeCol) ∧
    ∀ col ∈ df.columns,
      (col ∈ (analyze_data df).1 ↔ is_numeric_dtype col.dtype = true) ∧
      (col ∈ (analyze_data df).2.2 ↔
        (is_numeric_dtype col.dtype = false ∧ is_datetime64_any_dtype col.dtype = true)) ∧
      (col ∈ (analyze_data df).2.1 ↔
        (is_numeric_dtype col.dtype = false ∧ is_datetime64_any_dtype col.dtype = false ∧
          nunique col ≤ 20)) := by
  refine ⟨analyze_data_eq df, ?_⟩
  intro col hc
  rw [analyze_data_eq]
  refine ⟨?_, ?_, ?_⟩ <;>
    simp [List.mem_filter, isNumericCol, isCategoricalCol, isDatetimeCol, hc, and_assoc]

/-- Witness for C1 at the example dataframe: the low-cardinality text column
lands in the categorical bucket. -/
theorem analyze_data_classification_witness :
    exCat ∈ (analyze_data exDf).2.1 ↔
      (is_numeric_dtype exCat.dtype = false ∧ is_datetime64_any_dtype exCat.dtype = false ∧
        nunique exCat ≤ 20) :=
  ((analyze_data_classification exDf).2 exCat (by decide)).2.2

/-- C2: every column appears in at most one of the three buckets returned by
`analyze_data`, and a non-numeric, non-datetime column with more than 20
distinct non-null values appears in none of the three. -/
theorem analyze_data_buckets_disjoint (df : DataFrame) (col : Column) :
    (¬ (col ∈ (analyze_data df).1 ∧ col ∈ (analyze_data df).2.1) ∧
     ¬ (col ∈ (analyze_data df).1 ∧ col ∈ (analyze_data df).2.2) ∧
     ¬ (col ∈ (analyze_data df).2.1 ∧ col ∈ (analyze_data df).2.2)) ∧
    (is_numeric_dtype col.dtype = false → is_datetime64_any_dtype col.dtype = false →
      20 < nunique col →
        col ∉ (analyze_data df).1 ∧ col ∉ (analyze_data df).2.1 ∧
          col ∉ (analyze_data df).2.2) := by
  rw [analyze_data_eq]
  simp only [List.mem_filter, isNumericCol, isCategoricalCol, isDatetimeCol]
  refine ⟨⟨?_, ?_, ?_⟩, ?_⟩
  · rintro ⟨⟨-, h1⟩, ⟨-, h2⟩⟩
    simp [h1] at h2
  · rintro ⟨⟨-, h1⟩, ⟨-, h2⟩⟩
    simp [h1] at h2
  · rintro ⟨⟨-, h1⟩, ⟨-, h2⟩⟩
    simp at h1 h2
    exact absurd h2.2 (by simp [h1.1.2])
  · intro hn hd hu
    refine ⟨fun h => ?_, fun h => ?_, fun h => ?_⟩ <;> simp [hn, hd] at h
    omega

/-- Witness for C2 at the example dataframe: the 21-distinct-value text
column is excluded from all three buckets. -/
theorem analyze_data_buckets_disjoint_witness :
    exHigh ∉ (analyze_data exDf).1 ∧ exHigh ∉ (analyze_data exDf).2.1 ∧
      exHigh ∉ (analyze_data exDf).2.2 :=
  (analyze_data_buckets_disjoint exDf exHigh).2 (by decide) (by decide) (by decide)

/-- C6: `load_data` parses `.csv` names with the csv parser and
`.xlsx`/`.xls` names with the excel parser, returns the parsed dataframe on
success, shows a message carrying the original error text and returns no
dataframe when the parser raises, and shows an unsupported-format message
and returns no dataframe for any other suffix.  Totality of `load_data`
models that no exception ever propagates out of it. -/
theorem load_data_dispatch (read_csv read_excel : UploadedFile → Except String DataFrame)
    (f : UploadedFile) :
    (pyEndsWith f.name ".csv" = true →
      (∀ df, read_csv f = Except.ok df → load_data read_csv read_excel f = (some df, [])) ∧
      (∀ e, read_csv f = Except.error e →
        load_data read_csv read_excel f = (none, ["Error loading file: " ++ e]))) ∧
    ((pyEndsWith f.name ".xlsx" = true ∨ pyEndsWith f.name ".xls" = true) →
      (∀ df, read_excel f = Except.ok df → load_data read_csv read_excel f = (some df, [])) ∧
      (∀ e, read_excel f = Except.error e →
        load_data read_csv read_excel f = (none, ["Error loading file: " ++ e]))) ∧
    (pyEndsWith f.name ".csv" = false → pyEndsWith f.name ".xlsx" = false →
      pyEndsWith f.name ".xls" = false →
      load_data read_csv read_excel f =
        (none, ["Unsupported file format. Please upload a CSV or Excel file."])) := by
  refine ⟨?_, ?_, ?_⟩
  · intro hcsv
    constructor
    · intro df hok
      simp [load_data, hcsv, hok]
    · intro e herr
      simp [load_data, hcsv, herr]
  · intro hx
    have hcsv : pyEndsWith f.name ".csv" = false := by
      cases hx with
      | inl h => exact pyEndsWith_false_of_incompatible h (by decide) (by decide)
      | inr h => exact pyEndsWith_false_of_incompatible h (by decide) (by decide)
    have hxor : (pyEndsWith f.name ".xlsx" || pyEndsWith f.name ".xls") = true := by
      cases hx with
      | inl h => simp [h]
      | inr h => simp [h]
    constructor
    · intro df hok
      simp [load_data, hcsv, hxor, hok]
    · intro e herr
      simp [load_data, hcsv, hxor, herr]
  · intro h1 h2 h3
    simp [load_data, h1, h2, h3]

/-- Witness for C6: a `.csv` file on a succeeding parser, and again on a
raising parser. -/
theorem load_data_dispatch_witness :
    load_data (fun _ => Except.ok exDf) (fun _ => Except.ok exDf)
        ⟨"data.csv", []⟩ = (some exDf, []) ∧
    load_data (fun _ => Except.error "boom") (fun _ => Except.ok exDf)
        ⟨"data.csv", []⟩ = (none, ["Error loading file: " ++ "boom"]) :=
  ⟨((load_data_dispatch (fun _ => Except.ok exDf) (fun _ => Except.ok exDf)
      ⟨"data.csv", []⟩).1 (by decide)).1 exDf rfl,
   ((load_data_dispatch (fun _ => Except.error "boom") (fun _ => Except.ok exDf)
      ⟨"data.csv", []⟩).1 (by decide)).2 "boom" rfl⟩

/-- Model of Python `str.lower()` on ASCII text: lowercase every character.
An uppercase or mixed-case variant of an extension `e` is a string `v` with
`pyLower v = e` and `v ≠ e`. -/
def pyLower (s : String) : String :=
  String.mk (s.data.map Char.toLower)

theorem pyEndsWith_ne_of_variant {name v r : String}
    (hlow : pyLower v = r) (hne : v ≠ r) (hv : pyEndsWith name v = true) :
    pyEndsWith name r = false := by
  cases hr : pyEndsWith name r with
  | false => rfl
  | true =>
    exfalso
    have hlen : v.data.length = r.data.length := by
      rw [← hlow]
      simp [pyLower]
    rcases List.suffix_or_suffix_of_suffix (pyEndsWith_suffix hv)
        (pyEndsWith_suffix hr) with h | h
    · exact hne (String.ext (h.eq_of_length hlen))
    · exact hne (String.ext (h.eq_of_length hlen.symm).symm)

theorem pyEndsWith_other_of_variant {name v e r : String}
    (hlow : pyLower v = e) (hrfix : pyLower r = r)
    (h1 : ¬ e.data <:+ r.data) (h2 : ¬ r.data <:+ e.data)
    (hv : pyEndsWith name v = true) :
    pyEndsWith name r = false := by
  cases hr : pyEndsWith name r with
  | false => rfl
  | true =>
    exfalso
    have he : v.data.map Char.toLower = e.data := congrArg String.data hlow
    have hrd : r.data.map Char.toLower = r.data := congrArg String.data hrfix
    rcases List.suffix_or_suffix_of_suffix (pyEndsWith_suffix hv)
        (pyEndsWith_suffix hr) with h | h
    · have hm := List.IsSuffix.map Char.toLower h
      rw [he, hrd] at hm
      exact h1 hm
    · have hm := List.IsSuffix.map Char.toLower h
      rw [he, hrd] at hm
      exact h2 hm

/-- C9: extension dispatch is case-sensitive — a name ending in any
uppercase or mixed-case variant of a supported extension (a string that
lowercases to `.csv`, `.xlsx` or `.xls` but is not equal to it) takes the
unsupported-format branch and yields no dataframe. -/
theorem load_data_case_sensitive (read_csv read_excel : UploadedFile → Except String DataFrame)
    (f : UploadedFile) (v : String)
    (hvar : pyLower v = ".csv" ∨ pyLower v = ".xlsx" ∨ pyLower v = ".xls")
    (hne : v ≠ pyLower v)
    (hends : pyEndsWith f.name v = true) :
    load_data read_csv read_excel f =
      (none, ["Unsupported file format. Please upload a CSV or Excel file."]) := by
  have hall : pyEndsWith f.name ".csv" = false ∧ pyEndsWith f.name ".xlsx" = false ∧
      pyEndsWith f.name ".xls" = false := by
    rcases hvar with h | h | h
    · rw [h] at hne
      exact ⟨pyEndsWith_ne_of_variant h hne hends,
             pyEndsWith_other_of_variant h (by decide) (by decide) (by decide) hends,
             pyEndsWith_other_of_variant h (by decide) (by decide) (by decide) hends⟩
    · rw [h] at hne
      exact ⟨pyEndsWith_other_of_variant h (by decide) (by decide) (by decide) hends,
             pyEndsWith_ne_of_variant h hne hends,
             pyEndsWith_other_of_variant h (by decide) (by decide) (by decide) hends⟩
    · rw [h] at hne
      exact ⟨pyEndsWith_other_of_variant h (by decide) (by decide) (by decide) hends,
             pyEndsWith_other_of_variant h (by decide) (by decide) (by decide) hends,
             pyEndsWith_ne_of_variant h hne hends⟩
  simp [load_data, hall.1, hall.2.1, hall.2.2]

/-- Witness for C9: `report.CSV` and `data.XLSX` are both rejected even
though their lowercase variants would parse. -/
theorem load_data_case_sensitive_witness :
    (load_data (fun _ => Except.ok exDf) (fun _ => Except.ok exDf) ⟨"report.CSV", []⟩ =
      (none, ["Unsupported file format. Please upload a CSV or Excel file."])) ∧
    (load_data (fun _ => Except.error "boom") (fun _ => Except.ok exDf) ⟨"data.XLSX", []⟩ =
      (none, ["Unsupported file format. Please upload a CSV or Excel file."])) :=
  ⟨load_data_case_sensitive _ _ _ ".CSV" (Or.inl (by decide)) (by decide) (by decide),
   load_data_case_sensitive _ _ _ ".XLSX" (Or.inr (Or.inl (by decide))) (by decide) (by decide)⟩

/-- A rendered matplotlib/seaborn figure, represented by the parameters of
the library calls that configured it.  `countplot` records the call
`sns.countplot(y=col, data=df, order=...)`: binding the categorical column
to the y axis renders horizontal bars. -/
inductive Fig where
  | histplot (data : List (Option String)) (kde : Bool) (title : String) (xlabel : String)
  | boxplot (x : List (Option String)) (title : String)
  | countplot (y : String) (order : List String) (title : String) (xlabel : String)
  | heatmap (cols : List String) (annot : Bool) (cmap : String) (title : String)
  | pairplot (cols : List String) (sample : Nat)
  | lineplot (indexCol : String) (ycol : String) (title : String) (ylabel : String)
deriving DecidableEq, Repr

/-- Keep the first occurrence of each value, dropping later duplicates. -/
def uniqueInOrder : List String → List String
  | [] => []
  | v :: rest => v :: uniqueInOrder (rest.filter (fun w => w != v))
termination_by l => l.length
decreasing_by
  simp only [List.length_cons]
  have := List.length_filter_le (fun w => w != v) rest
  omega

/-- Insert a `(value, count)` pair into a list sorted by descending count,
after any earlier pair with the same count. -/
def insertByCountDesc (p : String × Nat) : List (String × Nat) → List (String × Nat)
  | [] => [p]
  | q :: rest => if q.2 < p.2 then p :: q :: rest else q :: insertByCountDesc p rest

/-- Insertion sort by descending count. -/
def sortByCountDesc : List (String × Nat) → List (String × Nat)
  | [] => []
  | p :: rest => insertByCountDesc p (sortByCountDesc rest)

/-- Model of `Series.value_counts()`: the distinct non-null values with
their occurrence counts, sorted by descending count (pandas defaults
`sort=True, ascending=False, dropna=True`). -/
def value_counts (values : List (Option String)) : List (String × Nat) :=
  let vs := values.filterMap id
  sortByCountDesc ((uniqueInOrder vs).map (fun v => (v, vs.count v)))

theorem mem_insertByCountDesc {p a : String × Nat} {l : List (String × Nat)} :
    a ∈ insertByCountDesc p l ↔ a = p ∨ a ∈ l := by
  induction l with
  | nil => simp [insertByCountDesc]
  | cons q rest ih =>
    simp only [insertByCountDesc]
    split
    · simp
    · simp only [List.mem_cons, ih]
      tauto

theorem pairwise_insertByCountDesc {p : String × Nat} {l : List (String × Nat)}
    (h : l.Pairwise (fun a b => b.2 ≤ a.2)) :
    (insertByCountDesc p l).Pairwise (fun a b => b.2 ≤ a.2) := by
  induction l with
  | nil => simp [insertByCountDesc]
  | cons q rest ih =>
    rw [List.pairwise_cons] at h
    simp only [insertByCountDesc]
    split
    · rename_i hlt
      rw [List.pairwise_cons]
      refine ⟨?_, List.pairwise_cons.mpr h⟩
      intro b hb
      rcases List.mem_cons.mp hb with hb | hb
      · subst hb
        omega
      · have := h.1 b hb
        omega
    · rename_i hge
      rw [List.pairwise_cons]
      refine ⟨?_, ih h.2⟩
      intro b hb
      rcases mem_insertByCountDesc.mp hb with hb | hb
      · subst hb
        omega
      · exact h.1 b hb

theorem pairwise_sortByCountDesc (l : List (String × Nat)) :
    (sortByCountDesc l).Pairwise (fun a b => b.2 ≤ a.2) := by
  induction l with
  | nil => simp [sortByCountDesc]
  | cons p rest ih => exact pairwise_insertByCountDesc ih

theorem mem_sortByCountDesc {a : String × Nat} {l : List (String × Nat)} :
    a ∈ sortByCountDesc l ↔ a ∈ l := by
  induction l with
  | nil => simp [sortByCountDesc]
  | cons p rest ih =>
    simp only [sortByCountDesc, mem_insertByCountDesc, ih, List.mem_cons]

theorem value_counts_count {values : List (Option String)} {v : String} {k : Nat}
    (h : (v, k) ∈ value_counts values) : k = (values.filterMap id).count v := by
  have h2 := mem_sortByCountDesc.mp h
  rcases List.mem_map.mp h2 with ⟨w, _, hw⟩
  cases hw
  rfl

theorem value_counts_sorted (values : List (Option String)) :
    ((value_counts values).map Prod.fst).Pairwise
      (fun v w => (values.filterMap id).count w ≤ (values.filterMap id).count v) := by
  rw [List.pairwise_map]
  refine (pairwise_sortByCountDesc _).imp_of_mem ?_
  intro a b ha hb hle
  have hka : a.2 = (values.filterMap id).count a.1 := value_counts_count (by simpa using ha)
  have hkb : b.2 = (values.filterMap id).count b.1 := value_counts_count (by simpa using hb)
  rw [← hka, ← hkb]
  exact hle

/-- State threaded through the body of `generate_visualizations`: the
accumulated `plots` list of `(plot_type, fig, label)` triples, the
`plot_counter`, and the `(plot_counter, total_plots)` pair of every
evaluation of the progress fraction `plot_counter/total_plots`. -/
structure GenState where
  plots : List (String × Fig × String)
  counter : Nat
  events : List (Nat × Nat)
deriving DecidableEq, Repr

/-- One plot emission: append the triple, bump `plot_counter`, report
progress once. -/
def emit (total : Nat) (st : GenState) (p : String × Fig × String) : GenState :=
  { plots := st.plots ++ [p]
    counter := st.counter + 1
    events := st.events ++ [(st.counter + 1, total)] }

/-- The `total_plots` computation of lines 90-92 of `src/index.py`. -/
def total_plots_of (numeric_cols categorical_cols datetime_cols : List Column) : Nat :=
  let t := numeric_cols.length * 2 + categorical_cols.length +
    datetime_cols.length * min 1 numeric_cols.length
  if numeric_cols.length > 1 then t + 2 else t

/-- The state at the end of the body of `generate_visualizations(df,
numeric_cols, categorical_cols, datetime_cols)` (lines 81-175 of
`src/index.py`).  `df[col]` is the column's own cell list, and
`numeric_cols[0]` is the head of `numeric_cols`, reached only inside the
`len(numeric_cols) > 0` guard of the time-series loop. -/
def genFinalState (df : DataFrame)
    (numeric_cols categorical_cols datetime_cols : List Column) : GenState :=
  let total_plots := total_plots_of numeric_cols categorical_cols datetime_cols
  let st0 : GenState := ⟨[], 0, []⟩
  let st1 := numeric_cols.foldl (fun st col =>
    emit total_plots st
      ("histogram",
       Fig.histplot col.values true ("Distribution of " ++ col.name) col.name,
       col.name)) st0
  let st2 := numeric_cols.foldl (fun st col =>
    emit total_plots st
      ("boxplot", Fig.boxplot col.values ("Boxplot of " ++ col.name), col.name)) st1
  let st3 := categorical_cols.foldl (fun st col =>
    emit total_plots st
      ("barplot",
       Fig.countplot col.name ((value_counts col.values).map Prod.fst)
         ("Distribution of " ++ col.name) "Count",
       col.name)) st2
  let st4 := if numeric_cols.length > 1 then
      emit total_plots st3
        ("heatmap",
         Fig.heatmap (numeric_cols.map Column.name) true "coolwarm"
           "Feature Correlation Matrix",
         "Correlation")
    else st3
  let st5 := if numeric_cols.length > 1 then
      emit total_plots st4
        ("pairplot",
         Fig.pairplot (numeric_cols.map Column.name) (min 500 df.nrows),
         "Pairwise Relationships")
    else st4
  let st6 := datetime_cols.foldl (fun st date_col =>
    match numeric_cols with
    | [] => st
    | num_col :: _ =>
      emit total_plots st
        ("timeseries",
         Fig.lineplot date_col.name num_col.name (num_col.name ++ " over Time")
           num_col.name,
         date_col.name ++ " & " ++ num_col.name)) st5
  st6

/-- Model of `generate_visualizations`: the returned `plots` list together
with the recorded progress-fraction evaluations. -/
def generate_visualizations (df : DataFrame)
    (numeric_cols categorical_cols datetime_cols : List Column) :
    List (String × Fig × String) × List (Nat × Nat) :=
  ((genFinalState df numeric_cols categorical_cols datetime_cols).plots,
   (genFinalState df numeric_cols categorical_cols datetime_cols).events)

theorem foldl_emit_eq {α : Type} (f : α → String × Fig × String) (total : Nat)
    (l : List α) :
    ∀ st : GenState,
      l.foldl (fun st c => emit total st (f c)) st =
        { plots := st.plots ++ l.map f
          counter := st.counter + l.length
          events := st.events ++
            (List.range l.length).map (fun k => (st.counter + k + 1, total)) } := by
  induction l with
  | nil => intro st; simp
  | cons c rest ih =>
    intro st
    rw [List.foldl_cons, ih]
    simp only [emit, List.map_cons, List.length_cons]
    rw [GenState.mk.injEq]
    refine ⟨?_, by omega, ?_⟩
    · simp
    · rw [List.range_succ_eq_map]
      simp only [List.map_cons, List.map_map, List.append_assoc,
        List.singleton_append, Nat.add_zero]
      refine congrArg (fun t => st.events ++ ((st.counter + 1, total) :: t)) ?_
      refine List.map_congr_left ?_
      intro k _
      simp only [Function.comp_apply]
      refine congrArg (fun m => (m, total)) ?_
      omega

/-- The plot list `generate_visualizations` produces, written as explicit
concatenated groups. -/
def genPlotsSpec (df : DataFrame) (n c d : List Column) :
    List (String × Fig × String) :=
  n.map (fun col =>
    ("histogram",
     Fig.histplot col.values true ("Distribution of " ++ col.name) col.name,
     col.name)) ++
  n.map (fun col =>
    ("boxplot", Fig.boxplot col.values ("Boxplot of " ++ col.name), col.name)) ++
  c.map (fun col =>
    ("barplot",
     Fig.countplot col.name ((value_counts col.values).map Prod.fst)
       ("Distribution of " ++ col.name) "Count",
     col.name)) ++
  (if n.length > 1 then
    [("heatmap",
      Fig.heatmap (n.map Column.name) true "coolwarm" "Feature Correlation Matrix",
      "Correlation")]
   else []) ++
  (if n.length > 1 then
    [("pairplot", Fig.pairplot (n.map Column.name) (min 500 df.nrows),
      "Pairwise Relationships")]
   else []) ++
  (match n with
   | [] => []
   | num_col :: _ =>
     d.map (fun date_col =>
       ("timeseries",
        Fig.lineplot date_col.name num_col.name (num_col.name ++ " over Time")
          num_col.name,
        date_col.name ++ " & " ++ num_col.name)))

theorem foldl_const {α : Type} (l : List α) (st : GenState) :
    l.foldl (fun st _ => st) st = st := by
  induction l generalizing st with
  | nil => rfl
  | cons a rest ih => exact ih st

theorem genFinalState_plots (df : DataFrame) (n c d : List Column) :
    (genFinalState df n c d).plots = genPlotsSpec df n c d := by
  cases n with
  | nil =>
    simp only [genFinalState, genPlotsSpec, foldl_emit_eq]
    rw [foldl_const]
    simp
  | cons num rest =>
    simp only [genFinalState, genPlotsSpec, foldl_emit_eq]
    split_ifs with h <;> simp [emit]

/-- Invariant maintained by the generation loop: the counter equals the
number of plots emitted so far, and the recorded progress evaluations are
`(1, total), (2, total), …, (counter, total)`. -/
def genInv (total : Nat) (st : GenState) : Prop :=
  st.counter = st.plots.length ∧
  st.events = (List.range st.plots.length).map (fun k => (k + 1, total))

theorem genInv_emit {total : Nat} {st : GenState} (p : String × Fig × String)
    (h : genInv total st) : genInv total (emit total st p) := by
  obtain ⟨h1, h2⟩ := h
  constructor
  · simp [emit, h1]
  · simp [emit, h2, h1, List.range_succ]

theorem genInv_foldl {α : Type} {total : Nat} (step : GenState → α → GenState)
    (hstep : ∀ st a, genInv total st → genInv total (step st a)) :
    ∀ (l : List α) (st : GenState), genInv total st → genInv total (l.foldl step st) := by
  intro l
  induction l with
  | nil => intro st h; exact h
  | cons a rest ih => intro st h; exact ih _ (hstep st a h)

theorem genFinalState_inv (df : DataFrame) (n c d : List Column) :
    genInv (total_plots_of n c d) (genFinalState df n c d) := by
  simp only [genFinalState]
  apply genInv_foldl
  · intro st a h
    cases n with
    | nil => exact h
    | cons num rest => exact genInv_emit _ h
  · split
    · apply genInv_emit
      apply genInv_emit
      apply genInv_foldl _ (fun st a h => genInv_emit _ h)
      apply genInv_foldl _ (fun st a h => genInv_emit _ h)
      apply genInv_foldl _ (fun st a h => genInv_emit _ h)
      exact ⟨rfl, rfl⟩
    · apply genInv_foldl _ (fun st a h => genInv_emit _ h)
      apply genInv_foldl _ (fun st a h => genInv_emit _ h)
      apply genInv_foldl _ (fun st a h => genInv_emit _ h)
      exact ⟨rfl, rfl⟩

theorem genPlotsSpec_length (df : DataFrame) (n c d : List Column) :
    (genPlotsSpec df n c d).length = total_plots_of n c d := by
  cases n with
  | nil => simp [genPlotsSpec, total_plots_of]
  | cons num rest =>
    simp only [genPlotsSpec, total_plots_of, List.length_append, List.length_map,
      List.length_cons]
    split_ifs <;> simp <;> omega

theorem gen_plots_eq (df : DataFrame) (n c d : List Column) :
    (generate_visualizations df n c d).1 = genPlotsSpec df n c d := by
  simp [generate_visualizations, genFinalState_plots]

theorem gen_events_eq (df : DataFrame) (n c d : List Column) :
    (generate_visualizations df n c d).2 =
      (List.range (total_plots_of n c d)).map (fun k => (k + 1, total_plots_of n c d)) := by
  have h := genFinalState_inv df n c d
  show (genFinalState df n c d).events = _
  rw [h.2, genFinalState_plots, genPlotsSpec_length]

/-- C3: the plot total computed before generation equals the number of plot
artifacts actually appended, for every combination of bucket sizes. -/
theorem generate_visualizations_count (df : DataFrame) (n c d : List Column) :
    (generate_visualizations df n c d).1.length =
      2 * n.length + c.length + d.length * (if 0 < n.length then 1 else 0) +
        (if 1 < n.length then 2 else 0) ∧
    (generate_visualizations df n c d).1.length = total_plots_of n c d := by
  have h2 : (generate_visualizations df n c d).1.length = total_plots_of n c d := by
    rw [gen_plots_eq, genPlotsSpec_length]
  refine ⟨?_, h2⟩
  rw [h2]
  simp only [total_plots_of]
  cases n with
  | nil => simp
  | cons num rest =>
    simp only [List.length_cons]
    rw [Nat.min_eq_left (by omega)]
    split_ifs <;> omega

/-- Counterexample to C4 as stated: with no numeric column and one datetime
column, the returned collection contains no time-series chart at all, not
one per datetime column. -/
theorem generate_visualizations_order_cex :
    ((generate_visualizations exDf [] [] [exDate]).1.filter
        (fun p => p.1 == "timeseries")).length ≠ ([exDate] : List Column).length := by
  decide

/-- C4 (amended): the returned plot collection is exactly the numeric
histograms, then the numeric boxplots, then the categorical bar charts,
then the heatmap and the pairplot (each present exactly when at least two
numeric columns exist), then one time-series chart per datetime column —
the time-series group present exactly when at least one numeric column
exists; within each group the columns appear in classification order. -/
theorem generate_visualizations_order (df : DataFrame) (n c d : List Column) :
    (generate_visualizations df n c d).1 = genPlotsSpec df n c d :=
  gen_plots_eq df n c d

/-- C5: one time-series artifact per datetime column is emitted exactly when
at least one numeric column exists, always plotting the first numeric
column, titled with that column's name followed by " over Time"; with no
numeric columns no time-series artifact is produced. -/
theorem generate_visualizations_timeseries (df : DataFrame) (n c d : List Column) :
    (n = [] →
      ((generate_visualizations df n c d).1.filter (fun p => p.1 == "timeseries")) = []) ∧
    (∀ num rest, n = num :: rest →
      ((generate_visualizations df n c d).1.filter (fun p => p.1 == "timeseries")) =
        d.map (fun date_col =>
          ("timeseries",
           Fig.lineplot date_col.name num.name (num.name ++ " over Time") num.name,
           date_col.name ++ " & " ++ num.name))) := by
  constructor
  · rintro rfl
    rw [gen_plots_eq]
    simp [genPlotsSpec, List.filter_append, List.filter_map, Function.comp_def]
  · rintro num rest rfl
    rw [gen_plots_eq]
    simp only [genPlotsSpec, List.filter_append, List.filter_map, Function.comp_def]
    split_ifs <;>
      simp [List.filter_map, Function.comp_def, List.filter_eq_self]

/-- Witness for C5: one numeric and one datetime column give exactly one
time-series artifact, indexed by the datetime column and plotting the
numeric column. -/
theorem generate_visualizations_timeseries_witness :
    ((generate_visualizations exDf [exNum] [] [exDate]).1.filter
        (fun p => p.1 == "timeseries")) =
      [exDate].map (fun date_col =>
        ("timeseries",
         Fig.lineplot date_col.name exNum.name (exNum.name ++ " over Time") exNum.name,
         date_col.name ++ " & " ++ exNum.name)) :=
  (generate_visualizations_timeseries exDf [exNum] [] [exDate]).2 exNum [] rfl

/-- C7: the artifacts generated for the categorical columns are exactly one
horizontal count bar chart per categorical column (a `sns.countplot` with
the column bound to the y axis), titled with "Distribution of " followed by
the column name, whose bar order is the `value_counts` index; and that
order always lists the column's values by descending frequency. -/
theorem generate_visualizations_barplots (df : DataFrame) (n c d : List Column) :
    ((generate_visualizations df n c d).1.filter (fun p => p.1 == "barplot")) =
      c.map (fun col =>
        ("barplot",
         Fig.countplot col.name ((value_counts col.values).map Prod.fst)
           ("Distribution of " ++ col.name) "Count",
         col.name)) ∧
    ∀ col : Column,
      ((value_counts col.values).map Prod.fst).Pairwise
        (fun v w => (col.values.filterMap id).count w ≤ (col.values.filterMap id).count v) := by
  constructor
  · rw [gen_plots_eq]
    cases n with
    | nil =>
      simp [genPlotsSpec, List.filter_append, List.filter_map, Function.comp_def,
        List.filter_eq_self]
    | cons num rest =>
      simp only [genPlotsSpec, List.filter_append, List.filter_map, Function.comp_def]
      split_ifs <;>
        simp [List.filter_map, Function.comp_def, List.filter_eq_self]
  · intro col
    exact value_counts_sorted col.values

/-- C10: every evaluation of the progress fraction happens with
`total_plots` at least 1 (its recorded numerator is between 1 and the
denominator, which equals the precomputed total), and with all three
buckets empty no progress is reported and the returned collection is empty.
-/
theorem generate_visualizations_progress_safe (df : DataFrame) (n c d : List Column) :
    (∀ e ∈ (generate_visualizations df n c d).2,
      e.2 = total_plots_of n c d ∧ 1 ≤ e.1 ∧ e.1 ≤ e.2 ∧ 1 ≤ e.2) ∧
    (n = [] → c = [] → d = [] → generate_visualizations df n c d = ([], [])) := by
  constructor
  · intro e he
    rw [gen_events_eq] at he
    rcases List.mem_map.mp he with ⟨k, hk, rfl⟩
    have hk2 := List.mem_range.mp hk
    exact ⟨rfl, by omega, by omega, by omega⟩
  · rintro rfl rfl rfl
    have h1 : (generate_visualizations df [] [] []).1 = [] := by
      rw [gen_plots_eq]
      simp [genPlotsSpec]
    have h2 : (generate_visualizations df [] [] []).2 = [] := by
      rw [gen_events_eq]
      simp [total_plots_of]
    exact Prod.ext h1 h2

/-- Witness for C10: with one numeric column the two recorded progress
evaluations have denominator 2 ≥ 1; checked at the first. -/
theorem generate_visualizations_progress_safe_witness :
    (1, 2) ∈ (generate_visualizations exDf [exNum] [] []).2 ∧
    ((1, 2) : Nat × Nat).2 = total_plots_of [exNum] [] [] ∧
      1 ≤ ((1, 2) : Nat × Nat).1 ∧ ((1, 2) : Nat × Nat).1 ≤ ((1, 2) : Nat × Nat).2 ∧
      1 ≤ ((1, 2) : Nat × Nat).2 :=
  ⟨by decide,
   (generate_visualizations_progress_safe exDf [exNum] [] []).1 (1, 2) (by decide)⟩

/-- Decimal digits of a natural number (most significant first), as Python
str-formats the index in the f-string of `create_zip_archive`. -/
def natToDigits (n : Nat) : List Char :=
  if n < 10 then [Nat.digitChar n]
  else natToDigits (n / 10) ++ [Nat.digitChar (n % 10)]
decreasing_by
  exact Nat.div_lt_self (by omega) (by omega)

/-- Decimal rendering of a natural number. -/
def natStr (n : Nat) : String :=
  String.mk (natToDigits n)

/-- Model of Python `s.replace(' ', '_')`. -/
def pyReplaceSpaceUnderscore (s : String) : String :=
  String.mk (s.data.map (fun ch => if ch = ' ' then '_' else ch))

/-- The `enumerate` loop of `create_zip_archive` (lines 177-191 of
`src/index.py`), carrying the 0-based index `i`: each artifact is stored
under `plot_{i+1}_{plot_type}_{label with spaces replaced}.png`, paired
with the figure whose PNG bytes are written. -/
def zipEntries : Nat → List (String × Fig × String) → List (String × Fig)
  | _, [] => []
  | i, (plot_type, fig, col) :: rest =>
    ("plot_" ++ natStr (i + 1) ++ "_" ++ plot_type ++ "_" ++
        pyReplaceSpaceUnderscore col ++ ".png", fig) :: zipEntries (i + 1) rest

/-- Model of `create_zip_archive(plots)`: the named PNG entries of the ZIP
archive, in order. -/
def create_zip_archive (plots : List (String × Fig × String)) : List (String × Fig) :=
  zipEntries 0 plots

/-- Model of the HTML-report construction (lines 283-290 of `src/index.py`):
string accumulation over the plots, with `b64` standing for
`base64.b64encode(...PNG bytes...).decode()`. -/
def html_report (b64 : Fig → String) (plots : List (String × Fig × String)) : String :=
  let r := "<html><body><h1>AutoViz Report</h1>"
  let r := plots.foldl (fun acc p =>
    acc ++ "<h2>" ++ p.2.2 ++ " (" ++ p.1 ++ ")</h2>" ++
      "<img src=\"data:image/png;base64," ++ b64 p.2.1 ++ "\"><br>") r
  r ++ "</body></html>"

/-- Value of a digit string, used to invert `natToDigits`. -/
def digitsVal (l : List Char) : Nat :=
  l.foldl (fun acc c => 10 * acc + (c.toNat - 48)) 0

theorem digitsVal_append_singleton (l : List Char) (c : Char) :
    digitsVal (l ++ [c]) = 10 * digitsVal l + (c.toNat - 48) := by
  simp [digitsVal, List.foldl_append]

theorem digitChar_toNat {d : Nat} (h : d < 10) : (Nat.digitChar d).toNat = 48 + d := by
  interval_cases d <;> rfl

theorem digitChar_isDigit {d : Nat} (h : d < 10) : (Nat.digitChar d).isDigit = true := by
  interval_cases d <;> rfl

theorem digitsVal_natToDigits (n : Nat) : digitsVal (natToDigits n) = n := by
  induction n using Nat.strong_induction_on with
  | _ n ih =>
    rw [natToDigits]
    split
    · rename_i h
      simp [digitsVal, digitChar_toNat h]
    · rename_i h
      rw [digitsVal_append_singleton, ih (n / 10) (Nat.div_lt_self (by omega) (by omega)),
        digitChar_toNat (Nat.mod_lt n (by omega))]
      omega

theorem natToDigits_inj {m n : Nat} (h : natToDigits m = natToDigits n) : m = n := by
  have hm := digitsVal_natToDigits m
  rw [h, digitsVal_natToDigits] at hm
  omega

theorem natToDigits_digits (n : Nat) : ∀ ch ∈ natToDigits n, ch.isDigit = true := by
  induction n using Nat.strong_induction_on with
  | _ n ih =>
    rw [natToDigits]
    split
    · rename_i h
      intro ch hch
      rcases List.mem_singleton.mp hch with rfl
      exact digitChar_isDigit h
    · rename_i h
      intro ch hch
      rcases List.mem_append.mp hch with hch | hch
      · exact ih (n / 10) (Nat.div_lt_self (by omega) (by omega)) ch hch
      · rcases List.mem_singleton.mp hch with rfl
        exact digitChar_isDigit (Nat.mod_lt n (by omega))

theorem digits_sep_inj : ∀ (a b x y : List Char),
    (∀ ch ∈ a, ch.isDigit = true) → (∀ ch ∈ b, ch.isDigit = true) →
    a ++ '_' :: x = b ++ '_' :: y → a = b := by
  intro a
  induction a with
  | nil =>
    intro b x y _ hb h
    cases b with
    | nil => rfl
    | cons d bs =>
      exfalso
      simp only [List.nil_append, List.cons_append, List.cons.injEq] at h
      have hd := hb d (List.mem_cons_self d bs)
      rw [← h.1] at hd
      exact absurd hd (by decide)
  | cons ch as ih =>
    intro b x y ha hb h
    cases b with
    | nil =>
      exfalso
      simp only [List.cons_append, List.nil_append, List.cons.injEq] at h
      have hc := ha ch (List.mem_cons_self ch as)
      rw [h.1] at hc
      exact absurd hc (by decide)
    | cons d bs =>
      simp only [List.cons_append, List.cons.injEq] at h
      obtain ⟨h1, h2⟩ := h
      subst h1
      rw [ih bs x y (fun c hc => ha c (List.mem_cons_of_mem _ hc))
        (fun c hc => hb c (List.mem_cons_of_mem _ hc)) h2]

theorem zipEntries_name_shape :
    ∀ (l : List (String × Fig × String)) (k : Nat) (s : String),
      s ∈ (zipEntries k l).map Prod.fst →
      ∃ j r, k ≤ j ∧ s.data = "plot_".data ++ (natToDigits (j + 1) ++ '_' :: r) := by
  intro l
  induction l with
  | nil =>
    intro k s h
    simp [zipEntries] at h
  | cons p rest ih =>
    intro k s h
    obtain ⟨t, fig, c⟩ := p
    simp only [zipEntries, List.map_cons, List.mem_cons] at h
    rcases h with h | h
    · refine ⟨k, (t ++ "_" ++ pyReplaceSpaceUnderscore c ++ ".png").data, le_refl k, ?_⟩
      subst h
      simp [natStr]
    · obtain ⟨j, r, hj, hr⟩ := ih (k + 1) s h
      exact ⟨j, r, by omega, hr⟩

theorem zipEntries_names_nodup :
    ∀ (l : List (String × Fig × String)) (k : Nat),
      ((zipEntries k l).map Prod.fst).Nodup := by
  intro l
  induction l with
  | nil =>
    intro k
    simp [zipEntries]
  | cons p rest ih =>
    intro k
    obtain ⟨t, fig, c⟩ := p
    simp only [zipEntries, List.map_cons]
    rw [List.nodup_cons]
    refine ⟨?_, ih (k + 1)⟩
    intro hmem
    obtain ⟨j, r, hj, hr⟩ := zipEntries_name_shape rest (k + 1) _ hmem
    have hk : ("plot_" ++ natStr (k + 1) ++ "_" ++ t ++ "_" ++
        pyReplaceSpaceUnderscore c ++ ".png").data =
        "plot_".data ++ (natToDigits (k + 1) ++
          '_' :: (t ++ "_" ++ pyReplaceSpaceUnderscore c ++ ".png").data) := by
      simp [natStr]
    rw [hk] at hr
    have hinner := List.append_cancel_left hr
    have heq := digits_sep_inj _ _ _ _ (natToDigits_digits (k + 1))
      (natToDigits_digits (j + 1)) hinner
    have := natToDigits_inj heq
    omega

theorem zipEntries_eq_enumFrom :
    ∀ (l : List (String × Fig × String)) (k : Nat),
      zipEntries k l = (l.enumFrom k).map (fun q =>
        ("plot_" ++ natStr (q.1 + 1) ++ "_" ++ q.2.1 ++ "_" ++
            pyReplaceSpaceUnderscore q.2.2.2 ++ ".png", q.2.2.1)) := by
  intro l
  induction l with
  | nil => intro k; rfl
  | cons p rest ih =>
    intro k
    obtain ⟨t, fig, c⟩ := p
    simp only [zipEntries, List.enumFrom_cons, List.map_cons, ih]

/-- Concatenation of a list of strings. -/
def strConcat : List String → String
  | [] => ""
  | s :: rest => s ++ strConcat rest

theorem html_report_eq (b64 : Fig → String) (plots : List (String × Fig × String)) :
    html_report b64 plots =
      "<html><body><h1>AutoViz Report</h1>" ++
        strConcat (plots.map (fun p =>
          ("<h2>" ++ p.2.2 ++ " (" ++ p.1 ++ ")</h2>") ++
            ("<img src=\"data:image/png;base64," ++ b64 p.2.1 ++ "\"><br>"))) ++
        "</body></html>" := by
  have h : ∀ (l : List (String × Fig × String)) (acc : String),
      l.foldl (fun acc p =>
        acc ++ "<h2>" ++ p.2.2 ++ " (" ++ p.1 ++ ")</h2>" ++
          "<img src=\"data:image/png;base64," ++ b64 p.2.1 ++ "\"><br>") acc =
      acc ++ strConcat (l.map (fun p =>
        ("<h2>" ++ p.2.2 ++ " (" ++ p.1 ++ ")</h2>") ++
          ("<img src=\"data:image/png;base64," ++ b64 p.2.1 ++ "\"><br>"))) := by
    intro l
    induction l with
    | nil =>
      intro acc
      simp [strConcat]
    | cons p rest ih =>
      intro acc
      simp only [List.foldl_cons, List.map_cons, strConcat, ih]
      simp only [String.append_assoc]
  simp only [html_report]
  rw [h]

/-- C8: the ZIP archive holds exactly one PNG entry per artifact, named
`plot_{i}_{kind}_{label with spaces replaced by underscores}.png` with the
1-based index `i` following collection order, and all entry names are
pairwise distinct even when labels collide; and the HTML report is the
fixed header followed, in the same collection order, by exactly one `<h2>`
heading (label and kind) and one base64-inlined `<img>` per artifact,
followed by the fixed footer. -/
theorem create_zip_archive_html_report (plots : List (String × Fig × String))
    (b64 : Fig → String) :
    (create_zip_archive plots).length = plots.length ∧
    create_zip_archive plots = plots.enum.map (fun q =>
      ("plot_" ++ natStr (q.1 + 1) ++ "_" ++ q.2.1 ++ "_" ++
          pyReplaceSpaceUnderscore q.2.2.2 ++ ".png", q.2.2.1)) ∧
    ((create_zip_archive plots).map Prod.fst).Nodup ∧
    html_report b64 plots =
      "<html><body><h1>AutoViz Report</h1>" ++
        strConcat (plots.map (fun p =>
          ("<h2>" ++ p.2.2 ++ " (" ++ p.1 ++ ")</h2>") ++
            ("<img src=\"data:image/png;base64," ++ b64 p.2.1 ++ "\"><br>"))) ++
        "</body></html>" := by
  refine ⟨?_, ?_, ?_, ?_⟩
  · rw [create_zip_archive, zipEntries_eq_enumFrom]
    simp [List.enum]
  · rw [create_zip_archive, zipEntries_eq_enumFrom]
    rfl
  · exact zipEntries_names_nodup plots 0
  · exact html_report_eq b64 plots
